import Mathlib

/-!
Shallow embedding of the VirtualSensor telemetry agent (Rust) and proofs
about its packet parser, capture-thread flow merging, correlator sweep,
netlink message codec, taskstats decoding and id-map construction.

Byte buffers are `List Nat` with each element a byte value; multi-byte
integers are decoded exactly as the source does (big-endian on the wire for
packet fields, native little-endian for netlink structs).  Loops of the
source that have no structural termination argument are embedded with an
explicit fuel parameter; `none` means the source loops (or, where noted,
panics), `some r` is the value the source returns.
-/

namespace VSensor

/-! ### Helpers from src/src/common.rs -/

/-- common.rs next_align_num: round `curr` up to a multiple of `align`. -/
def next_align_num (curr align : Nat) : Nat :=
  ((curr + align - 1) / align) * align

/-- common.rs align_buffer: pad `buf` with zero bytes to a multiple of `align`. -/
def align_buffer (buf : List Nat) (align : Nat) : List Nat :=
  buf ++ List.replicate (next_align_num buf.length align - buf.length) 0

/-- u16::from_be_bytes of two bytes. -/
def u16be (b0 b1 : Nat) : Nat := b0 * 256 + b1

/-- u16::from_ne_bytes (host is little-endian) of two bytes. -/
def u16le (b0 b1 : Nat) : Nat := b0 + 256 * b1

/-- u32::from_ne_bytes (host is little-endian) of four bytes. -/
def u32le (b0 b1 b2 b3 : Nat) : Nat := b0 + 256 * (b1 + 256 * (b2 + 256 * b3))

/-- Little-endian byte encoding of a `u16` value. -/
def u16_bytes (v : Nat) : List Nat := [v % 256, v / 256 % 256]

/-- Little-endian byte encoding of a `u32` value. -/
def u32_bytes (v : Nat) : List Nat :=
  [v % 256, v / 256 % 256, v / 65536 % 256, v / 16777216 % 256]

/-- Wrapping subtraction on `usize` (the release-profile semantics of the
source's unchecked `a - b` on 64-bit `usize` values). -/
def usize_sub (a b : Nat) : Nat := (a + (2 ^ 64 - b % 2 ^ 64)) % 2 ^ 64

theorem usize_sub_eq_sub (a b : Nat) (hb : b ≤ a) (ha : a < 2 ^ 64) :
    usize_sub a b = a - b := by
  unfold usize_sub
  omega

/-! ### Data model from src/src/network_stat.rs -/

inductive ConnectionType where
  | TCP
  | UDP
  deriving DecidableEq, Repr

inductive IpAddr where
  | v4 (a b c d : Nat)
  | v6 (a b c d e f g h : Nat)
  deriving DecidableEq, Repr

/-- network_stat.rs UniConnection: directed flow 5-tuple. -/
structure UniConnection where
  src_addr : IpAddr
  src_port : Nat
  dest_addr : IpAddr
  dest_port : Nat
  conn_type : ConnectionType
  deriving DecidableEq, Repr

/-- network_stat.rs UniConnectionStat: per-flow counters plus the transient
`is_used` marker.  Counters are u128 in the source; claims never reach the
u128 bound, so they are plain naturals here. -/
structure UniConnectionStat where
  uni_conn : UniConnection
  packet_count : Nat
  total_data_count : Nat
  real_data_count : Nat
  is_used : Bool
  deriving DecidableEq, Repr

/-- The AddAssign impl for UniConnectionStat: counters are summed, the
target's `is_used` is left unchanged. -/
def UniConnectionStat.addAssign (a b : UniConnectionStat) : UniConnectionStat :=
  { a with
    packet_count := a.packet_count + b.packet_count
    total_data_count := a.total_data_count + b.total_data_count
    real_data_count := a.real_data_count + b.real_data_count }

/-- Errors of network_stat.rs (the variants the parser can produce). -/
inductive NetworkStatError where
  | convertErr
  | unknownVLANTag (tag : Nat)
  | unknownProtocol (protocol : Nat)
  | ipv4PacketLenErr (len : Nat)
  | ipv4PacketVersionErr (version : Nat)
  | ipv6PacketLenErr (len : Nat)
  | ipv6PacketVersionErr (version : Nat)
  | ipv6UnknownOptionalHeaderType (headerType : Nat)
  | unsupportedProtocol (protocol : Nat)
  deriving DecidableEq, Repr

/-! ### Packet parser from src/src/network_stat.rs -/

/-- network_stat.rs parse_ipv4_packet. -/
def parse_ipv4_packet (data : List Nat) : Except NetworkStatError UniConnectionStat :=
  if data.length < 20 then .error (.ipv4PacketLenErr data.length)
  else if (data.getD 0 0) &&& 0xf0 ≠ 0x40 then
    .error (.ipv4PacketVersionErr ((data.getD 0 0) &&& 0xf0))
  else
    let header_len := ((data.getD 0 0) &&& 0x0f) * 4
    let payload_length := usize_sub (u16be (data.getD 2 0) (data.getD 3 0)) header_len
    match (data.getD 9 0) with
    | 0x06 =>
      parseWithType data header_len payload_length ConnectionType.TCP
    | 0x11 =>
      parseWithType data header_len payload_length ConnectionType.UDP
    | b => .error (.unsupportedProtocol b)
where
  /-- The tail of parse_ipv4_packet once the payload protocol is known:
  addresses from bytes 12..20, ports from the two big-endian u16s at the
  start of the L4 header (checked reads yielding ConvertErr when short). -/
  parseWithType (data : List Nat) (header_len payload_length : Nat)
      (conn_type : ConnectionType) : Except NetworkStatError UniConnectionStat :=
    let src_addr := IpAddr.v4 (data.getD 12 0) (data.getD 13 0) (data.getD 14 0) (data.getD 15 0)
    let dest_addr := IpAddr.v4 (data.getD 16 0) (data.getD 17 0) (data.getD 18 0) (data.getD 19 0)
    if header_len + 2 ≤ data.length then
      let src_port := u16be (data.getD header_len 0) (data.getD (header_len + 1) 0)
      if header_len + 4 ≤ data.length then
        let dest_port := u16be (data.getD (header_len + 2) 0) (data.getD (header_len + 3) 0)
        .ok { uni_conn := ⟨src_addr, src_port, dest_addr, dest_port, conn_type⟩
              packet_count := 1
              total_data_count := 0
              real_data_count := payload_length
              is_used := false }
      else .error .convertErr
    else .error .convertErr

/-- The IPv6 extension-header types the walk skips over. -/
def ipv6_extension_header_types : List Nat := [0, 43, 44, 51, 50, 60, 135, 139, 140, 253, 254]

/-- The next-header values that stop the walk. -/
def normal_payload_types : List Nat := [6, 17]

/-- The extension-header loop of parse_ipv6_packet, with explicit fuel.
`none` means the loop has not finished within `fuel` iterations (the source
keeps looping); `some` is the result: final next-header value and the index
just past the extension headers, or the error the source returns. -/
def ipv6_ext_walk (data : List Nat) (next_header_type curr_idx fuel : Nat) :
    Option (Except NetworkStatError (Nat × Nat)) :=
  match fuel with
  | 0 => none
  | fuel + 1 =>
    if next_header_type ∈ normal_payload_types then
      some (.ok (next_header_type, curr_idx))
    else if next_header_type ∈ ipv6_extension_header_types then
      if curr_idx + 2 ≤ data.length then
        ipv6_ext_walk data (data.getD curr_idx 0) (curr_idx + data.getD (curr_idx + 1) 0) fuel
      else some (.error .convertErr)
    else some (.error (.ipv6UnknownOptionalHeaderType next_header_type))

/-- network_stat.rs parse_ipv6_packet, fuel-parametric in its extension
header walk.  `none` means the source's loop does not terminate within
`fuel` iterations. -/
def parse_ipv6_packet_fuel (data : List Nat) (fuel : Nat) :
    Option (Except NetworkStatError UniConnectionStat) :=
  if data.length < 40 then some (.error (.ipv6PacketLenErr data.length))
  else if (data.getD 0 0) &&& 0xf0 ≠ 0x60 then
    some (.error (.ipv6PacketVersionErr ((data.getD 0 0) &&& 0xf0)))
  else
    let payload_length := u16be (data.getD 4 0) (data.getD 5 0)
    let src_addr := IpAddr.v6
      (u16be (data.getD 8 0) (data.getD 9 0)) (u16be (data.getD 10 0) (data.getD 11 0))
      (u16be (data.getD 12 0) (data.getD 13 0)) (u16be (data.getD 14 0) (data.getD 15 0))
      (u16be (data.getD 16 0) (data.getD 17 0)) (u16be (data.getD 18 0) (data.getD 19 0))
      (u16be (data.getD 20 0) (data.getD 21 0)) (u16be (data.getD 22 0) (data.getD 23 0))
    let dest_addr := IpAddr.v6
      (u16be (data.getD 24 0) (data.getD 25 0)) (u16be (data.getD 26 0) (data.getD 27 0))
      (u16be (data.getD 28 0) (data.getD 29 0)) (u16be (data.getD 30 0) (data.getD 31 0))
      (u16be (data.getD 32 0) (data.getD 33 0)) (u16be (data.getD 34 0) (data.getD 35 0))
      (u16be (data.getD 36 0) (data.getD 37 0)) (u16be (data.getD 38 0) (data.getD 39 0))
    match ipv6_ext_walk data (data.getD 6 0) 40 fuel with
    | none => none
    | some (.error e) => some (.error e)
    | some (.ok (next_header_type, curr_idx)) =>
      let conn_type? : Except NetworkStatError ConnectionType :=
        match next_header_type with
        | 0x06 => .ok ConnectionType.TCP
        | 0x11 => .ok ConnectionType.UDP
        | b => .error (.unsupportedProtocol b)
      match conn_type? with
      | .error e => some (.error e)
      | .ok conn_type =>
        if curr_idx + 2 ≤ data.length then
          let src_port := u16be (data.getD curr_idx 0) (data.getD (curr_idx + 1) 0)
          if curr_idx + 4 ≤ data.length then
            let dest_port := u16be (data.getD (curr_idx + 2) 0) (data.getD (curr_idx + 3) 0)
            some (.ok { uni_conn := ⟨src_addr, src_port, dest_addr, dest_port, conn_type⟩
                        packet_count := 1
                        total_data_count := 0
                        real_data_count := usize_sub payload_length (curr_idx - 40)
                        is_used := false })
          else some (.error .convertErr)
        else some (.error .convertErr)

/-- parse_ipv6_packet with the canonical fuel: every terminating run of the
source's loop takes at most `data.length + 2` iterations (each non-final
step either advances the index, which is bounded by the buffer, or reaches a
state that resolves in one more step), so a `none` here means the source
loops forever. -/
def parse_ipv6_packet (data : List Nat) : Option (Except NetworkStatError UniConnectionStat) :=
  parse_ipv6_packet_fuel data (data.length + 2)

/-- A captured packet: `len` is pcap's wire length (header.len), `data` the
snapshot bytes. -/
structure Packet where
  len : Nat
  data : List Nat
  deriving DecidableEq, Repr

/-- The VLAN-tag-skipping loop at the top of get_uni_conn_stat, with fuel.
Breaks (returning the current index) on EtherType 0x0800/0x86DD, advances 4
bytes on 0x8100/0x88A8, rejects anything else. -/
def vlan_skip (data : List Nat) (curr_idx fuel : Nat) :
    Option (Except NetworkStatError Nat) :=
  match fuel with
  | 0 => none
  | fuel + 1 =>
    if curr_idx + 2 ≤ data.length then
      let tag := u16be (data.getD curr_idx 0) (data.getD (curr_idx + 1) 0)
      if tag = 0x0800 ∨ tag = 0x86DD then some (.ok curr_idx)
      else if tag = 0x8100 ∨ tag = 0x88A8 then vlan_skip data (curr_idx + 4) fuel
      else some (.error (.unknownVLANTag tag))
    else some (.error .convertErr)

/-- network_stat.rs get_uni_conn_stat: skip VLAN tags, dispatch on the
EtherType, then overwrite total_data_count with the pcap wire length. -/
def get_uni_conn_stat (packet : Packet) : Option (Except NetworkStatError UniConnectionStat) :=
  match vlan_skip packet.data 12 (packet.data.length + 1) with
  | none => none
  | some (.error e) => some (.error e)
  | some (.ok curr_idx) =>
    let data := packet.data.drop curr_idx
    if 2 ≤ data.length then
      let result : Option (Except NetworkStatError UniConnectionStat) :=
        match u16be (data.getD 0 0) (data.getD 1 0) with
        | 0x0800 => some (parse_ipv4_packet (data.drop 2))
        | 0x86DD => parse_ipv6_packet (data.drop 2)
        | tag => some (.error (.unknownProtocol tag))
      match result with
      | none => none
      | some (.error e) => some (.error e)
      | some (.ok x) => some (.ok { x with total_data_count := packet.len })
    else some (.error .convertErr)

/-! ### Capture-thread merge and correlator sweep (src/src/network_stat.rs) -/

/-- Association-list lookup standing for HashMap::get. -/
def flowLookup (m : List (UniConnection × UniConnectionStat)) (k : UniConnection) :
    Option UniConnectionStat :=
  match m with
  | [] => none
  | (k', v) :: rest => if k' = k then some v else flowLookup rest k

/-- Update the value stored at key `k` (first occurrence). -/
def flowUpdate (m : List (UniConnection × UniConnectionStat)) (k : UniConnection)
    (v : UniConnectionStat) : List (UniConnection × UniConnectionStat) :=
  match m with
  | [] => []
  | (k', v') :: rest => if k' = k then (k, v) :: rest else (k', v') :: flowUpdate rest k v

/-- The merge step of capture_thread (network_stat.rs lines 848-853):
`*map.entry(stat.uni_conn).or_insert(stat) += stat`.  If the key is present
the stored entry is summed with the new stat; if it is vacant, `or_insert`
first stores the stat and the `+=` then adds it once more on top. -/
def mergeUniConnStat (m : List (UniConnection × UniConnectionStat))
    (stat : UniConnectionStat) : List (UniConnection × UniConnectionStat) :=
  match flowLookup m stat.uni_conn with
  | some old => flowUpdate m stat.uni_conn (old.addAssign stat)
  | none => m ++ [(stat.uni_conn, stat.addAssign stat)]

/-- network_stat.rs InterfaceRawStat (the flow map as an association list). -/
structure InterfaceRawStat where
  iname : List Nat
  uni_conn_stats : List (UniConnection × UniConnectionStat)
  deriving DecidableEq, Repr

/-- InterfaceRawStat::remove_used_uni_conn_stats: retain the entries whose
`is_used` is false. -/
def InterfaceRawStat.remove_used_uni_conn_stats (irs : InterfaceRawStat) : InterfaceRawStat :=
  { irs with uni_conn_stats := irs.uni_conn_stats.filter (fun p => !p.2.is_used) }

/-- network_stat.rs NetworkRawStat, restricted to the per-interface stats the
sweep touches. -/
structure NetworkRawStat where
  irawstats : List (List Nat × InterfaceRawStat)
  deriving DecidableEq, Repr

/-- NetworkRawStat::remove_unused_uni_connection_stats: run the sweep on
every interface raw stat. -/
def NetworkRawStat.remove_unused_uni_connection_stats (nrs : NetworkRawStat) : NetworkRawStat :=
  { nrs with
    irawstats := nrs.irawstats.map (fun p => (p.1, p.2.remove_used_uni_conn_stats)) }

end VSensor

deriving instance DecidableEq for Except

namespace VSensor

/-! ### Concrete inputs for the packet-pipeline claims -/

/-- The flow key of end-to-end scenario 1: 10.0.0.1:40000 → 10.0.0.2:80 TCP. -/
def loopFlowKey : UniConnection :=
  ⟨IpAddr.v4 10 0 0 1, 40000, IpAddr.v4 10 0 0 2, 80, ConnectionType.TCP⟩

/-- The UniConnectionStat a capture task parses from scenario 1's first
frame: one packet, 100 bytes on the wire, 40 bytes of L4 payload. -/
def loopFlowStat : UniConnectionStat :=
  { uni_conn := loopFlowKey
    packet_count := 1
    total_data_count := 100
    real_data_count := 40
    is_used := false }

/-- An Ethernet/IPv4/TCP frame whose IPv4 total-length field (100) exceeds
its wire length (38 bytes): 12 MAC bytes, EtherType 0x0800, a 20-byte IPv4
header claiming total length 100, and the 4 port bytes of the L4 header. -/
def c2Frame : List Nat :=
  [0, 0, 0, 0, 0, 0, 0, 0, 0, 0, 0, 0] ++ [0x08, 0x00] ++
  [0x45, 0, 0, 100, 0, 0, 0, 0, 0, 6, 0, 0, 10, 0, 0, 1, 10, 0, 0, 2] ++
  [0x9c, 0x40, 0, 80]

/-- The crafted frame as captured: pcap reports a 38-byte wire length. -/
def c2Packet : Packet := ⟨38, c2Frame⟩

/-- A well-formed loopback frame for the witness: wire length 100, IPv4
total length 60 with a 20-byte header (40 payload bytes), TCP 40000→80. -/
def c2GoodFrame : List Nat :=
  [0, 0, 0, 0, 0, 0, 0, 0, 0, 0, 0, 0] ++ [0x08, 0x00] ++
  [0x45, 0, 0, 60, 0, 0, 0, 0, 0, 6, 0, 0, 10, 0, 0, 1, 10, 0, 0, 2] ++
  [0x9c, 0x40, 0, 80]

def c2GoodPacket : Packet := ⟨100, c2GoodFrame⟩

/-- Scenario 3's IPv6 packet: fixed header with payloadLength 20 and
next-header 0 (Hop-by-Hop), then an extension header with next-header 6
(TCP) and length byte 1, then the bytes the port reads touch. -/
def c3Data : List Nat :=
  [0x60, 0, 0, 0, 0, 20, 0, 0] ++ List.replicate 32 0 ++ [6, 1, 0, 0, 80]

/-- The same shape with payloadLength 30, used to instantiate the amended
claim at a second concrete input. -/
def c3WitnessData : List Nat :=
  [0x60, 0, 0, 0, 0, 30, 0, 0] ++ List.replicate 32 0 ++ [6, 1, 0, 0, 80]

/-- An IPv6 packet whose Hop-by-Hop extension header has length byte 0 and
next-header byte 0: the extension-header walk never leaves index 40. -/
def c10Data : List Nat := 0x60 :: List.replicate 41 0

/-! ### C1: capture-task merge into the pending-flows map -/

/-- C1 (code bug): merging a freshly parsed stat (1 packet, 100 total, 40
real bytes) into an empty pending-flows map stores DOUBLED counters: the
source's `*map.entry(k).or_insert(stat) += stat` inserts the stat and then
adds it to itself, so the entry for an absent key is stat + stat, not the
stat itself as the spec requires. -/
theorem capture_merge_vacant_key_doubles_counters :
    mergeUniConnStat [] loopFlowStat =
      [(loopFlowKey,
        { uni_conn := loopFlowKey
          packet_count := 2
          total_data_count := 200
          real_data_count := 80
          is_used := false })] ∧
    flowLookup (mergeUniConnStat [] loopFlowStat) loopFlowKey ≠ some loopFlowStat := by
  decide

/-! ### C2: shape of a successfully parsed UniConnectionStat -/

/-- Helper: parse_ipv4_packet only succeeds with packet_count 1 and
total_data_count 0 (the caller overwrites the total). -/
theorem parse_ipv4_packet_ok_shape (data : List Nat) (x : UniConnectionStat)
    (h : parse_ipv4_packet data = .ok x) :
    x.packet_count = 1 ∧ x.total_data_count = 0 := by
  simp only [parse_ipv4_packet, parse_ipv4_packet.parseWithType] at h
  repeat' split at h
  all_goals first
    | exact Except.noConfusion h
    | (injection h with h; subst h; exact ⟨rfl, rfl⟩)

/-- Helper: parse_ipv6_packet_fuel only succeeds with packet_count 1 and
total_data_count 0. -/
theorem parse_ipv6_packet_fuel_ok_shape (data : List Nat) (fuel : Nat)
    (x : UniConnectionStat)
    (h : parse_ipv6_packet_fuel data fuel = some (.ok x)) :
    x.packet_count = 1 ∧ x.total_data_count = 0 := by
  simp only [parse_ipv6_packet_fuel] at h
  repeat' split at h
  all_goals first
    | exact Option.noConfusion h
    | (injection h with h; first
        | exact Except.noConfusion h
        | (injection h with h; subst h; exact ⟨rfl, rfl⟩))

/-- C2 amended: for every frame the parser decodes successfully, the
resulting stat has packetCount = 1 and totalDataCount equal to the pcap
wire length (packet.header.len); realDataCount is NOT bounded by
totalDataCount, as it is read from the IP length field of the frame. -/
theorem get_uni_conn_stat_count_one_total_wire_len (packet : Packet)
    (s : UniConnectionStat)
    (h : get_uni_conn_stat packet = some (.ok s)) :
    s.packet_count = 1 ∧ s.total_data_count = packet.len := by
  simp only [get_uni_conn_stat] at h
  repeat' split at h
  all_goals first
    | exact Option.noConfusion h
    | (injection h with h; exact Except.noConfusion h)
    | skip
  rename_i x heq
  have hx : x.packet_count = 1 := by
    split at heq
    · injection heq with heq
      exact (parse_ipv4_packet_ok_shape _ _ heq).1
    · exact (parse_ipv6_packet_fuel_ok_shape _ _ _ heq).1
    · injection heq with heq
      exact Except.noConfusion heq
  injection h with h
  injection h with h
  subst h
  exact ⟨hx, rfl⟩

/-- The stat the crafted 38-byte frame parses to. -/
def c2BadStat : UniConnectionStat :=
  { uni_conn := loopFlowKey
    packet_count := 1
    total_data_count := 38
    real_data_count := 80
    is_used := false }

/-- C2 counterexample: the crafted frame decodes successfully, yet its
realDataCount (80, from the IPv4 total-length field) exceeds its
totalDataCount (38, the wire length), refuting realDataCount ≤
totalDataCount. -/
theorem uni_conn_stat_real_exceeds_total :
    get_uni_conn_stat c2Packet = some (.ok c2BadStat) ∧
      ¬ c2BadStat.real_data_count ≤ c2BadStat.total_data_count := by
  decide

/-- The stat the well-formed witness frame parses to. -/
def c2GoodStat : UniConnectionStat :=
  { uni_conn := loopFlowKey
    packet_count := 1
    total_data_count := 100
    real_data_count := 40
    is_used := false }

/-- C2 witness: the amended claim at a concrete well-formed frame. -/
theorem get_uni_conn_stat_count_one_total_wire_len_witness :
    get_uni_conn_stat c2GoodPacket = some (.ok c2GoodStat) ∧
      c2GoodStat.packet_count = 1 ∧ c2GoodStat.total_data_count = 100 :=
  ⟨by decide,
   (get_uni_conn_stat_count_one_total_wire_len c2GoodPacket c2GoodStat (by decide)).1,
   (get_uni_conn_stat_count_one_total_wire_len c2GoodPacket c2GoodStat (by decide)).2⟩

/-! ### C3 and C10: the IPv6 extension-header walk -/

/-- One unfolding step of the extension-header loop. -/
theorem ipv6_ext_walk_succ (data : List Nat) (nh ci fuel : Nat) :
    ipv6_ext_walk data nh ci (fuel + 1) =
      if nh ∈ normal_payload_types then some (.ok (nh, ci))
      else if nh ∈ ipv6_extension_header_types then
        if ci + 2 ≤ data.length then
          ipv6_ext_walk data (data.getD ci 0) (ci + data.getD (ci + 1) 0) fuel
        else some (.error .convertErr)
      else some (.error (.ipv6UnknownOptionalHeaderType nh)) := rfl

/-- The stat scenario 3's packet actually parses to: the walk advanced the
cursor by the raw length byte (1), so realDataCount is payloadLength − 1. -/
def c3Stat : UniConnectionStat :=
  { uni_conn := ⟨IpAddr.v6 0 0 0 0 0 0 0 0, 256, IpAddr.v6 0 0 0 0 0 0 0 0, 80,
                 ConnectionType.TCP⟩
    packet_count := 1
    total_data_count := 0
    real_data_count := 19
    is_used := false }

/-- C3 counterexample: on the Hop-by-Hop packet with length byte 1 the
parser does succeed with a TCP flow, but realDataCount is 19 =
payloadLength − 1, not payloadLength − 8 = 12: the source advances the walk
by the raw length byte, not by 8 bytes. -/
theorem ipv6_hbh_real_data_not_payload_minus_8 :
    parse_ipv6_packet c3Data = some (.ok c3Stat) ∧
      c3Stat.uni_conn.conn_type = ConnectionType.TCP ∧
      c3Stat.real_data_count ≠ u16be (c3Data.getD 4 0) (c3Data.getD 5 0) - 8 := by
  decide

/-- C3 amended: for every IPv6 packet whose fixed header's next-header byte
is 0 (Hop-by-Hop) and whose extension header has length byte 1 followed by
TCP (type byte 6 at offset 40), with enough bytes for the ports and a
non-zero payloadLength, parse_ipv6_packet succeeds with a TCP flow whose
realDataCount equals the IPv6 header's payloadLength minus 1 (the walk
advances by the raw length byte). -/
theorem parse_ipv6_hbh_len1_real_data (data : List Nat)
    (hlen : 45 ≤ data.length)
    (hver : data.getD 0 0 &&& 0xf0 = 0x60)
    (hnh : data.getD 6 0 = 0)
    (hext : data.getD 40 0 = 6)
    (hlb : data.getD 41 0 = 1)
    (h4 : data.getD 4 0 < 256)
    (h5 : data.getD 5 0 < 256)
    (hpl : 1 ≤ u16be (data.getD 4 0) (data.getD 5 0)) :
    ∃ s, parse_ipv6_packet data = some (.ok s) ∧
      s.uni_conn.conn_type = ConnectionType.TCP ∧
      s.real_data_count = u16be (data.getD 4 0) (data.getD 5 0) - 1 := by
  have hwalk : ipv6_ext_walk data (data.getD 6 0) 40 (data.length + 2) =
      some (.ok (6, 41)) := by
    have h2 : data.length + 2 = (data.length + 1) + 1 := by omega
    rw [hnh, h2, ipv6_ext_walk_succ]
    have hmem : (0 : Nat) ∉ normal_payload_types := by decide
    have hmem' : (0 : Nat) ∈ ipv6_extension_header_types := by decide
    rw [if_neg hmem, if_pos hmem', if_pos (by omega), hext, hlb]
    have h1 : data.length + 1 = data.length + 0 + 1 := by omega
    rw [h1, ipv6_ext_walk_succ, if_pos (by decide)]
  simp only [parse_ipv6_packet, parse_ipv6_packet_fuel]
  rw [if_neg (by omega), hver]
  rw [if_neg (by simp), hwalk]
  simp only []
  rw [if_pos (by omega : 41 + 2 ≤ data.length), if_pos (by omega : 41 + 4 ≤ data.length)]
  refine ⟨_, rfl, rfl, ?_⟩
  show usize_sub (u16be (data.getD 4 0) (data.getD 5 0)) (41 - 40) = _
  have h41 : (41 : Nat) - 40 = 1 := by omega
  rw [h41, usize_sub_eq_sub _ _ hpl (by unfold u16be at *; omega)]

/-- C3 witness: the amended claim at a concrete packet with payloadLength
30 (realDataCount 29). -/
theorem parse_ipv6_hbh_len1_real_data_witness :
    ∃ s, parse_ipv6_packet c3WitnessData = some (.ok s) ∧
      s.uni_conn.conn_type = ConnectionType.TCP ∧
      s.real_data_count = u16be (c3WitnessData.getD 4 0) (c3WitnessData.getD 5 0) - 1 :=
  parse_ipv6_hbh_len1_real_data c3WitnessData (by decide) (by decide) (by decide)
    (by decide) (by decide) (by decide) (by decide) (by decide)

/-- Helper for C10: at the stuck input the extension-header loop re-reads
the same two zero bytes forever. -/
theorem ipv6_ext_walk_c10_stuck : ∀ fuel, ipv6_ext_walk c10Data 0 40 fuel = none := by
  intro fuel
  induction fuel with
  | zero => rfl
  | succ n ih =>
    rw [ipv6_ext_walk_succ, if_neg (by decide), if_pos (by decide), if_pos (by decide)]
    have h40 : c10Data.getD 40 0 = 0 := by decide
    have h41 : (40 : Nat) + c10Data.getD 41 0 = 40 := by decide
    rw [h40, h41]
    exact ih

/-- C10 (code bug): parse_ipv6_packet does NOT terminate on every finite
buffer.  On an IPv6 frame whose Hop-by-Hop extension header has length byte
0 and next-header byte 0 the walk never advances: for every fuel bound the
loop is still running, i.e. the source spins forever (stalling the capture
thread while it holds the interface mutex). -/
theorem parse_ipv6_packet_nonterminating_on_zero_len_ext :
    ∀ fuel, parse_ipv6_packet_fuel c10Data fuel = none := by
  intro fuel
  have hw := ipv6_ext_walk_c10_stuck fuel
  have hnh : c10Data.getD 6 0 = 0 := by decide
  simp only [parse_ipv6_packet_fuel, hnh]
  rw [if_neg (by decide), if_neg (by decide), hw]

/-! ### C5: the correlator's end-of-tick sweep -/

/-- C5: after remove_unused_uni_connection_stats, no UniConnectionStat with
is_used = true remains in any interface raw stat of the snapshot, while
every entry with is_used = false is retained (in its interface's swept
stat). -/
theorem sweep_removes_used_retains_unused :
    ∀ nrs : NetworkRawStat,
      (∀ iname irs',
        (iname, irs') ∈ (NetworkRawStat.remove_unused_uni_connection_stats nrs).irawstats →
          ∀ p ∈ irs'.uni_conn_stats, p.2.is_used = false)
      ∧ (∀ iname irs,
        (iname, irs) ∈ nrs.irawstats →
          ∀ p ∈ irs.uni_conn_stats, p.2.is_used = false →
            (iname, irs.remove_used_uni_conn_stats)
              ∈ (NetworkRawStat.remove_unused_uni_connection_stats nrs).irawstats
            ∧ p ∈ irs.remove_used_uni_conn_stats.uni_conn_stats) := by
  intro nrs
  constructor
  · intro iname irs' hmem p hp
    simp only [NetworkRawStat.remove_unused_uni_connection_stats, List.mem_map] at hmem
    obtain ⟨⟨n, irs⟩, _, heq⟩ := hmem
    have hirs : irs' = irs.remove_used_uni_conn_stats := (Prod.mk.injEq _ _ _ _ ▸ heq).2.symm
    subst hirs
    simp only [InterfaceRawStat.remove_used_uni_conn_stats, List.mem_filter] at hp
    simpa using hp.2
  · intro iname irs hmem p hp hpu
    constructor
    · simp only [NetworkRawStat.remove_unused_uni_connection_stats, List.mem_map]
      exact ⟨(iname, irs), hmem, rfl⟩
    · simp only [InterfaceRawStat.remove_used_uni_conn_stats, List.mem_filter]
      exact ⟨hp, by simp [hpu]⟩

/-! ### Id maps from src/src/process.rs

A `/proc/<pid>/uid_map` (or `gid_map`) file is a sequence of lines, each
three decimal integers `(nsStart, realStart, length)`.  The source splits
each line on whitespace and parses the tokens with `parse().unwrap()`;
lines are modelled here already tokenised into naturals (`List Nat`), which
is the state of the data right after that parsing. -/

inductive ProcessError where
  | uidMapErr
  | gidMapErr
  deriving DecidableEq, Repr

/-- process.rs UidMapEntry (uid_end and real_uid_end are the INCLUSIVE-looking
start + length bounds the constructor stores). -/
structure UidMapEntry where
  uid_start : Nat
  uid_end : Nat
  real_uid_start : Nat
  real_uid_end : Nat
  length : Nat
  deriving DecidableEq, Repr

/-- UidMapEntry::new. -/
def UidMapEntry.new (uid_start real_uid_start length : Nat) : UidMapEntry :=
  { uid_start := uid_start
    uid_end := uid_start + length
    real_uid_start := real_uid_start
    real_uid_end := real_uid_start + length
    length := length }

/-- UidMapEntry::map_to_uid: the containment test is
`real_uid >= real_uid_start && real_uid <= real_uid_end`, i.e. INCLUSIVE of
`real_uid_start + length`. -/
def UidMapEntry.map_to_uid (e : UidMapEntry) (real_uid : Nat) : Option Nat :=
  if e.real_uid_start ≤ real_uid ∧ real_uid ≤ e.real_uid_end then
    some (e.uid_start + real_uid - e.real_uid_start)
  else none

/-- UidMapEntry::try_from on a tokenised line: exactly three values,
positive length. -/
def UidMapEntry.try_from (values : List Nat) : Except ProcessError UidMapEntry :=
  if values.length = 3 then
    let start := values.getD 0 0
    let real_start := values.getD 1 0
    let length := values.getD 2 0
    if length = 0 then .error .uidMapErr
    else .ok (UidMapEntry.new start real_start length)
  else .error .uidMapErr

/-- The overlap test UidMap::try_from runs against every earlier entry: it
rejects the new entry when its uid_start or uid_end lies inside an earlier
entry's [uid_start, uid_end]; the REAL range is never examined. -/
def uid_overlap_check (existing : List UidMapEntry) (ne : UidMapEntry) : Bool :=
  existing.any fun e =>
    (decide (e.uid_start ≤ ne.uid_start) && decide (ne.uid_start ≤ e.uid_end)) ||
    (decide (e.uid_start ≤ ne.uid_end) && decide (ne.uid_end ≤ e.uid_end))

/-- The accumulation loop of UidMap::try_from. -/
def uid_map_build (lines : List (List Nat)) (acc : List UidMapEntry) :
    Except ProcessError (List UidMapEntry) :=
  match lines with
  | [] => .ok acc
  | line :: rest =>
    match UidMapEntry.try_from line with
    | .error e => .error e
    | .ok ne =>
      if uid_overlap_check acc ne then .error .uidMapErr
      else uid_map_build rest (acc ++ [ne])

/-- process.rs UidMap. -/
structure UidMap where
  uid_map_entries : List UidMapEntry
  deriving DecidableEq, Repr

/-- UidMap::try_from (lines already tokenised). -/
def UidMap.try_from (lines : List (List Nat)) : Except ProcessError UidMap :=
  match uid_map_build lines [] with
  | .error e => .error e
  | .ok entries => .ok ⟨entries⟩

/-- UidMap::map_to_uid: first entry that maps the id. -/
def UidMap.map_to_uid (m : UidMap) (real_uid : Nat) : Option Nat :=
  go m.uid_map_entries
where
  go : List UidMapEntry → Option Nat
  | [] => none
  | e :: rest =>
    match e.map_to_uid real_uid with
    | some uid => some uid
    | none => go rest

/-- process.rs GidMapEntry. -/
structure GidMapEntry where
  gid_start : Nat
  gid_end : Nat
  real_gid_start : Nat
  real_gid_end : Nat
  length : Nat
  deriving DecidableEq, Repr

/-- GidMapEntry::new. -/
def GidMapEntry.new (gid_start real_gid_start length : Nat) : GidMapEntry :=
  { gid_start := gid_start
    gid_end := gid_start + length
    real_gid_start := real_gid_start
    real_gid_end := real_gid_start + length
    length := length }

/-- GidMapEntry::try_from on a tokenised line. -/
def GidMapEntry.try_from (values : List Nat) : Except ProcessError GidMapEntry :=
  if values.length = 3 then
    let start := values.getD 0 0
    let real_start := values.getD 1 0
    let length := values.getD 2 0
    if length = 0 then .error .gidMapErr
    else .ok (GidMapEntry.new start real_start length)
  else .error .gidMapErr

/-- The overlap test GidMap::try_from runs (namespace range only). -/
def gid_overlap_check (existing : List GidMapEntry) (ne : GidMapEntry) : Bool :=
  existing.any fun e =>
    (decide (e.gid_start ≤ ne.gid_start) && decide (ne.gid_start ≤ e.gid_end)) ||
    (decide (e.gid_start ≤ ne.gid_end) && decide (ne.gid_end ≤ e.gid_end))

/-- The accumulation loop of GidMap::try_from. -/
def gid_map_build (lines : List (List Nat)) (acc : List GidMapEntry) :
    Except ProcessError (List GidMapEntry) :=
  match lines with
  | [] => .ok acc
  | line :: rest =>
    match GidMapEntry.try_from line with
    | .error e => .error e
    | .ok ne =>
      if gid_overlap_check acc ne then .error .gidMapErr
      else gid_map_build rest (acc ++ [ne])

/-- process.rs GidMap. -/
structure GidMap where
  gid_map_entries : List GidMapEntry
  deriving DecidableEq, Repr

/-- GidMap::try_from (lines already tokenised). -/
def GidMap.try_from (lines : List (List Nat)) : Except ProcessError GidMap :=
  match gid_map_build lines [] with
  | .error e => .error e
  | .ok entries => .ok ⟨entries⟩

/-! ### C8: what id-map construction actually rejects -/

/-- The separation the uid overlap check enforces between an earlier entry
`a` and a later entry `b`: neither endpoint of `b`'s namespace range lies
inside `a`'s inclusive namespace range. -/
def uidNsSeparated (a b : UidMapEntry) : Prop :=
  ¬(a.uid_start ≤ b.uid_start ∧ b.uid_start ≤ a.uid_end) ∧
  ¬(a.uid_start ≤ b.uid_end ∧ b.uid_end ≤ a.uid_end)

/-- Gid version of the separation property. -/
def gidNsSeparated (a b : GidMapEntry) : Prop :=
  ¬(a.gid_start ≤ b.gid_start ∧ b.gid_start ≤ a.gid_end) ∧
  ¬(a.gid_start ≤ b.gid_end ∧ b.gid_end ≤ a.gid_end)

theorem uid_map_build_pairwise (lines : List (List Nat)) :
    ∀ acc entries, uid_map_build lines acc = .ok entries →
      acc.Pairwise uidNsSeparated → entries.Pairwise uidNsSeparated := by
  induction lines with
  | nil =>
    intro acc entries h hp
    injection h with h
    exact h ▸ hp
  | cons line rest ih =>
    intro acc entries h hp
    simp only [uid_map_build] at h
    split at h
    · exact Except.noConfusion h
    · rename_i newE _
      split at h
      · exact Except.noConfusion h
      · rename_i hcheck
        refine ih _ _ h (List.pairwise_append.mpr ⟨hp, List.pairwise_singleton _ _, ?_⟩)
        intro a ha b hb
        have hb' : b = newE := by simpa using hb
        subst hb'
        simp only [uidNsSeparated]
        constructor <;> intro hcon <;>
          exact hcheck (by
            rw [uid_overlap_check, List.any_eq_true]
            exact ⟨a, ha, by simp [hcon.1, hcon.2]⟩)

theorem gid_map_build_pairwise (lines : List (List Nat)) :
    ∀ acc entries, gid_map_build lines acc = .ok entries →
      acc.Pairwise gidNsSeparated → entries.Pairwise gidNsSeparated := by
  induction lines with
  | nil =>
    intro acc entries h hp
    injection h with h
    exact h ▸ hp
  | cons line rest ih =>
    intro acc entries h hp
    simp only [gid_map_build] at h
    split at h
    · exact Except.noConfusion h
    · rename_i newE _
      split at h
      · exact Except.noConfusion h
      · rename_i hcheck
        refine ih _ _ h (List.pairwise_append.mpr ⟨hp, List.pairwise_singleton _ _, ?_⟩)
        intro a ha b hb
        have hb' : b = newE := by simpa using hb
        subst hb'
        simp only [gidNsSeparated]
        constructor <;> intro hcon <;>
          exact hcheck (by
            rw [gid_overlap_check, List.any_eq_true]
            exact ⟨a, ha, by simp [hcon.1, hcon.2]⟩)

/-- C8 amended: uid/gid map construction only checks the NAMESPACE ranges,
and only that a later entry's endpoints do not fall inside an earlier
entry's inclusive namespace range; every successfully constructed map
satisfies exactly that pairwise separation.  Overlap in the REAL range is
never examined (see the counterexample). -/
theorem id_map_construction_ns_endpoint_separation :
    (∀ lines m, UidMap.try_from lines = .ok m →
       m.uid_map_entries.Pairwise uidNsSeparated)
    ∧ (∀ lines m, GidMap.try_from lines = .ok m →
       m.gid_map_entries.Pairwise gidNsSeparated) := by
  constructor
  · intro lines m h
    simp only [UidMap.try_from] at h
    split at h
    · exact Except.noConfusion h
    · rename_i entries hbuild
      injection h with h
      subst h
      exact uid_map_build_pairwise lines [] entries hbuild (List.Pairwise.nil)
  · intro lines m h
    simp only [GidMap.try_from] at h
    split at h
    · exact Except.noConfusion h
    · rename_i entries hbuild
      injection h with h
      subst h
      exact gid_map_build_pairwise lines [] entries hbuild (List.Pairwise.nil)

/-- C8 counterexample: the map text "0 0 5 / 10 0 5" has two entries whose
REAL ranges are identical ([0,5]), yet construction succeeds — the claim
that real-range overlaps are rejected is false on the code. -/
theorem uid_map_accepts_real_range_overlap :
    UidMap.try_from [[0, 0, 5], [10, 0, 5]] =
      .ok ⟨[UidMapEntry.new 0 0 5, UidMapEntry.new 10 0 5]⟩ ∧
    (UidMapEntry.new 0 0 5).real_uid_start ≤ (UidMapEntry.new 10 0 5).real_uid_start ∧
    (UidMapEntry.new 10 0 5).real_uid_start ≤ (UidMapEntry.new 0 0 5).real_uid_end := by
  decide

/-- C8 witness: the amended separation at a concrete successfully parsed
uid map with two disjoint namespace ranges. -/
theorem id_map_ns_endpoint_separation_witness :
    (UidMap.try_from [[0, 0, 5], [6, 10, 3]] =
      .ok ⟨[UidMapEntry.new 0 0 5, UidMapEntry.new 6 10 3]⟩) ∧
    ([UidMapEntry.new 0 0 5, UidMapEntry.new 6 10 3].Pairwise uidNsSeparated) :=
  ⟨by decide,
   id_map_construction_ns_endpoint_separation.1 [[0, 0, 5], [6, 10, 3]]
     ⟨[UidMapEntry.new 0 0 5, UidMapEntry.new 6 10 3]⟩ (by decide)⟩

/-! ### C9: what map_to_uid actually returns -/

/-- Entries of a map built from raw `(nsStart, realStart, length)` triples. -/
def entriesOfTriples (ts : List (Nat × Nat × Nat)) : List UidMapEntry :=
  ts.map fun t => UidMapEntry.new t.1 t.2.1 t.2.2

/-- C9 amended: mapping a real id through a uid map returns
`nsStart + (r − realStart)` for the FIRST entry whose INCLUSIVE real range
[realStart, realStart + length] contains r (note: including the right
endpoint realStart + length), and none when no entry's inclusive range
contains r. -/
theorem map_to_uid_first_inclusive_match (ts : List (Nat × Nat × Nat)) (r : Nat) :
    UidMap.map_to_uid ⟨entriesOfTriples ts⟩ r =
      match ts.find? (fun t => decide (t.2.1 ≤ r) && decide (r ≤ t.2.1 + t.2.2)) with
      | some t => some (t.1 + r - t.2.1)
      | none => none := by
  induction ts with
  | nil => rfl
  | cons t rest ih =>
    simp only [UidMap.map_to_uid, entriesOfTriples, List.map_cons, UidMap.map_to_uid.go,
      UidMapEntry.map_to_uid, UidMapEntry.new, List.find?]
    by_cases h : t.2.1 ≤ r ∧ r ≤ t.2.1 + t.2.2
    · rw [if_pos h]
      have : (decide (t.2.1 ≤ r) && decide (r ≤ t.2.1 + t.2.2)) = true := by
        simp [h.1, h.2]
      rw [this]
    · rw [if_neg h]
      have : (decide (t.2.1 ≤ r) && decide (r ≤ t.2.1 + t.2.2)) = false := by
        rcases Decidable.not_and_iff_or_not.mp h with h' | h' <;> simp [h']
      rw [this]
      simpa [UidMap.map_to_uid, entriesOfTriples] using ih

/-- C9 counterexample: for the single entry (nsStart 100, realStart 0,
length 5), mapping the real id 5 = realStart + length SUCCEEDS with 105
(the source's range test is inclusive), where the claim requires failure. -/
theorem map_to_uid_succeeds_at_real_start_plus_length :
    UidMap.map_to_uid ⟨entriesOfTriples [(100, 0, 5)]⟩ (0 + 5) = some 105 ∧
    UidMap.map_to_uid ⟨entriesOfTriples [(100, 0, 5)]⟩ (0 + 5) ≠ none := by
  decide

/-! ### Taskstats decoding from src/src/taskstat.rs

The version-specific raw structs are byte-for-byte copies of a prefix of
the payload; they are modelled as the copied byte prefix tagged with the
version whose packed layout was selected (the individual u64 fields are
never separated out by the claims). -/

/-- taskstat.rs TaskStatsRaw: one variant per supported on-wire version,
holding the bytes the unsafe cast copied (size_of of the packed structs:
V8 = 328, V9 = 344, V10 = 352, V11 = 368 bytes). -/
inductive TaskStatsRaw where
  | v8 (bytes : List Nat)
  | v9 (bytes : List Nat)
  | v10 (bytes : List Nat)
  | v11 (bytes : List Nat)
  deriving DecidableEq, Repr

/-- The version tag of a decoded raw struct. -/
def TaskStatsRaw.version : TaskStatsRaw → Nat
  | v8 _ => 8
  | v9 _ => 9
  | v10 _ => 10
  | v11 _ => 11

/-- The copied bytes of a decoded raw struct. -/
def TaskStatsRaw.bytes : TaskStatsRaw → List Nat
  | v8 b => b
  | v9 b => b
  | v10 b => b
  | v11 b => b

/-- size_of of the version-v packed struct. -/
def taskstats_version_length (v : Nat) : Nat :=
  if v = 8 then 328 else if v = 9 then 344 else if v = 10 then 352 else 368

/-- The constructor the version-v layout decodes into. -/
def TaskStatsRaw.ofVersion (v : Nat) (bytes : List Nat) : TaskStatsRaw :=
  if v = 8 then .v8 bytes else if v = 9 then .v9 bytes
  else if v = 10 then .v10 bytes else .v11 bytes

/-- taskstat.rs TaskStatsAttribute: a u16 type plus raw payload. -/
structure TaskStatsAttribute where
  attr_type : Nat
  payload : List Nat
  deriving DecidableEq, Repr

/-- taskstat.rs TaskStatsMessage. -/
structure TaskStatsMessage where
  command : Nat
  family_id : Nat
  attributes : List TaskStatsAttribute
  deriving DecidableEq, Repr

/-- taskstat.rs TaskStatsResultAttribute. -/
inductive TaskStatsResultAttribute where
  | unspecified
  | pid (tid : Nat)
  | tgid (p : Nat)
  | stats (s : TaskStatsRaw)
  | aggrPid (tid : Nat) (stats : TaskStatsRaw)
  | aggrTgid (p : Nat) (stats : TaskStatsRaw)
  | null
  deriving DecidableEq, Repr

/-- taskstat.rs TaskStatsError (the variants the modelled paths produce). -/
inductive TaskStatsError where
  | unsupportedVersion (v : Nat)
  | taskStructError (buf : List Nat)
  | noAggrPidAttribute (msg : TaskStatsMessage)
  | wrongTid (tid : Nat)
  | wrongResultType (attr : TaskStatsResultAttribute)
  | unknownResultAttributeType (t : Nat)
  deriving DecidableEq, Repr

/-- TaskStatsRawV8::from_byte_array (version check first, then size). -/
def taskstats_v8_from_byte_array (buf : List Nat) : Except TaskStatsError TaskStatsRaw :=
  if u16le (buf.getD 0 0) (buf.getD 1 0) ≠ 8 then
    .error (.unsupportedVersion (u16le (buf.getD 0 0) (buf.getD 1 0)))
  else if buf.length < 328 then .error (.taskStructError buf)
  else .ok (.v8 (buf.take 328))

/-- TaskStatsRawV9::from_byte_array. -/
def taskstats_v9_from_byte_array (buf : List Nat) : Except TaskStatsError TaskStatsRaw :=
  if u16le (buf.getD 0 0) (buf.getD 1 0) ≠ 9 then
    .error (.unsupportedVersion (u16le (buf.getD 0 0) (buf.getD 1 0)))
  else if buf.length < 344 then .error (.taskStructError buf)
  else .ok (.v9 (buf.take 344))

/-- TaskStatsRawV10::from_byte_array. -/
def taskstats_v10_from_byte_array (buf : List Nat) : Except TaskStatsError TaskStatsRaw :=
  if u16le (buf.getD 0 0) (buf.getD 1 0) ≠ 10 then
    .error (.unsupportedVersion (u16le (buf.getD 0 0) (buf.getD 1 0)))
  else if buf.length < 352 then .error (.taskStructError buf)
  else .ok (.v10 (buf.take 352))

/-- TaskStatsRawV11::from_byte_array. -/
def taskstats_v11_from_byte_array (buf : List Nat) : Except TaskStatsError TaskStatsRaw :=
  if u16le (buf.getD 0 0) (buf.getD 1 0) ≠ 11 then
    .error (.unsupportedVersion (u16le (buf.getD 0 0) (buf.getD 1 0)))
  else if buf.length < 368 then .error (.taskStructError buf)
  else .ok (.v11 (buf.take 368))

/-- TaskStatsRaw::from_byte_array: dispatch on the leading native-endian
u16.  `none` models the panic of `buf[0..2].try_into().unwrap()` on a
buffer shorter than two bytes. -/
def TaskStatsRaw.from_byte_array (buf : List Nat) : Option (Except TaskStatsError TaskStatsRaw) :=
  if buf.length < 2 then none
  else
    let version := u16le (buf.getD 0 0) (buf.getD 1 0)
    some (if version = 8 then taskstats_v8_from_byte_array buf
      else if version = 9 then taskstats_v9_from_byte_array buf
      else if version = 10 then taskstats_v10_from_byte_array buf
      else if version = 11 then taskstats_v11_from_byte_array buf
      else .error (.unsupportedVersion version))

/-- TryFrom of TaskStatsAttribute into TaskStatsResultAttribute.  `none`
models the panics of the unchecked `payload[4..8]` / `payload[12..]`
slices and of the nested TaskStatsRaw dispatch. -/
def taskstats_result_attr_try_from (a : TaskStatsAttribute) :
    Option (Except TaskStatsError TaskStatsResultAttribute) :=
  if a.attr_type = 0 then some (.ok .unspecified)
  else if a.attr_type = 1 then
    if a.payload.length < 8 then none
    else some (.ok (.pid (u32le (a.payload.getD 4 0) (a.payload.getD 5 0)
      (a.payload.getD 6 0) (a.payload.getD 7 0))))
  else if a.attr_type = 2 then
    if a.payload.length < 8 then none
    else some (.ok (.tgid (u32le (a.payload.getD 4 0) (a.payload.getD 5 0)
      (a.payload.getD 6 0) (a.payload.getD 7 0))))
  else if a.attr_type = 3 then
    match TaskStatsRaw.from_byte_array a.payload with
    | none => none
    | some (.error e) => some (.error e)
    | some (.ok s) => some (.ok (.stats s))
  else if a.attr_type = 4 then
    if a.payload.length < 8 then none
    else
      let tid := u32le (a.payload.getD 4 0) (a.payload.getD 5 0)
        (a.payload.getD 6 0) (a.payload.getD 7 0)
      if a.payload.length < 12 then none
      else
        match TaskStatsRaw.from_byte_array (a.payload.drop 12) with
        | none => none
        | some (.error e) => some (.error e)
        | some (.ok s) => some (.ok (.aggrPid tid s))
  else if a.attr_type = 5 then
    if a.payload.length < 8 then none
    else
      let p := u32le (a.payload.getD 4 0) (a.payload.getD 5 0)
        (a.payload.getD 6 0) (a.payload.getD 7 0)
      if a.payload.length < 12 then none
      else
        match TaskStatsRaw.from_byte_array (a.payload.drop 12) with
        | none => none
        | some (.error e) => some (.error e)
        | some (.ok s) => some (.ok (.aggrTgid p s))
  else if a.attr_type = 6 then some (.ok .null)
  else some (.error (.unknownResultAttributeType a.attr_type))

/-- TaskStatsMessage::GetResultAttribute for a numeric type `t`: scan for
the first attribute of that type; a parse failure of that attribute makes
the whole lookup return None (the source's `.ok()?`).  Outer `none` models
a panic inside the parse. -/
def get_result_attribute (attrs : List TaskStatsAttribute) (t : Nat) :
    Option (Option TaskStatsResultAttribute) :=
  match attrs with
  | [] => some none
  | a :: rest =>
    if a.attr_type = t then
      match taskstats_result_attr_try_from a with
      | none => none
      | some (.error _) => some none
      | some (.ok r) => some (some r)
    else get_result_attribute rest t

/-- The reply-processing tail of TaskStatsConnection::get_thread_taskstats
(everything after the netlink receive): look up the AggrPid (type 4) result
attribute, fail NoAggrPid when the lookup yields nothing, fail WrongTid on
a tid mismatch, and succeed otherwise.  The final unit-normalising
`.into()` conversion is not modelled; the ok value is the raw struct. -/
def get_thread_taskstats_reply (realTid : Nat) (respond : TaskStatsMessage) :
    Option (Except TaskStatsError TaskStatsRaw) :=
  match get_result_attribute respond.attributes 4 with
  | none => none
  | some none => some (.error (.noAggrPidAttribute respond))
  | some (some r) =>
    match r with
    | .aggrPid tid stats =>
      if tid ≠ realTid then some (.error (.wrongTid tid))
      else some (.ok stats)
    | other => some (.error (.wrongResultType other))

/-! ### C6: version dispatch of the taskstats payload decoder -/

/-- C6: the taskstats payload decoder accepts exactly the struct versions
8, 9, 10 and 11: (a) any other leading u16 value v fails with
UnsupportedVersion v; (b) every successful decode carries the leading u16
as its version, that version is in {8,9,10,11}, and the chosen fixed layout
is the version's packed-struct-sized prefix of the payload; (c) a payload
whose leading u16 IS a supported version and which is long enough for that
version's layout decodes successfully into that layout. -/
theorem taskstats_version_dispatch (buf : List Nat) (h2 : 2 ≤ buf.length) :
    (u16le (buf.getD 0 0) (buf.getD 1 0) ∉ ([8, 9, 10, 11] : List Nat) →
      TaskStatsRaw.from_byte_array buf =
        some (.error (.unsupportedVersion (u16le (buf.getD 0 0) (buf.getD 1 0)))))
    ∧ (∀ r, TaskStatsRaw.from_byte_array buf = some (.ok r) →
        r.version = u16le (buf.getD 0 0) (buf.getD 1 0) ∧
        r.version ∈ ([8, 9, 10, 11] : List Nat) ∧
        taskstats_version_length r.version ≤ buf.length ∧
        r.bytes = buf.take (taskstats_version_length r.version))
    ∧ (∀ v ∈ ([8, 9, 10, 11] : List Nat),
        u16le (buf.getD 0 0) (buf.getD 1 0) = v →
        taskstats_version_length v ≤ buf.length →
        TaskStatsRaw.from_byte_array buf =
          some (.ok (TaskStatsRaw.ofVersion v (buf.take (taskstats_version_length v))))) := by
  have hnl : ¬ buf.length < 2 := by omega
  refine ⟨?_, ?_, ?_⟩
  · intro hv
    simp only [List.mem_cons, List.mem_singleton, not_or] at hv
    simp only [TaskStatsRaw.from_byte_array, if_neg hnl]
    rw [if_neg hv.1, if_neg hv.2.1, if_neg hv.2.2.1, if_neg hv.2.2.2.1]
  · intro r h
    simp only [TaskStatsRaw.from_byte_array, if_neg hnl] at h
    injection h with h
    split_ifs at h with h8 h9 h10 h11
    · rw [taskstats_v8_from_byte_array, if_neg (not_not_intro h8)] at h
      split_ifs at h with hlen
      injection h with h
      subst h
      exact ⟨h8.symm, by simp [TaskStatsRaw.version],
        by show (328 : Nat) ≤ buf.length; omega, rfl⟩
    · rw [taskstats_v9_from_byte_array, if_neg (not_not_intro h9)] at h
      split_ifs at h with hlen
      injection h with h
      subst h
      exact ⟨h9.symm, by simp [TaskStatsRaw.version],
        by show (344 : Nat) ≤ buf.length; omega, rfl⟩
    · rw [taskstats_v10_from_byte_array, if_neg (not_not_intro h10)] at h
      split_ifs at h with hlen
      injection h with h
      subst h
      exact ⟨h10.symm, by simp [TaskStatsRaw.version],
        by show (352 : Nat) ≤ buf.length; omega, rfl⟩
    · rw [taskstats_v11_from_byte_array, if_neg (not_not_intro h11)] at h
      split_ifs at h with hlen
      injection h with h
      subst h
      exact ⟨h11.symm, by simp [TaskStatsRaw.version],
        by show (368 : Nat) ≤ buf.length; omega, rfl⟩
  · intro v hv hveq hlen
    simp only [TaskStatsRaw.from_byte_array, if_neg hnl]
    rcases (by simpa using hv : v = 8 ∨ v = 9 ∨ v = 10 ∨ v = 11) with h | h | h | h <;> subst h
    · have hlen' : (328 : Nat) ≤ buf.length := hlen
      rw [hveq]
      norm_num
      rw [taskstats_v8_from_byte_array, hveq]
      rw [if_neg (by norm_num), if_neg (by omega)]
      rfl
    · have hlen' : (344 : Nat) ≤ buf.length := hlen
      rw [hveq]
      norm_num
      rw [taskstats_v9_from_byte_array, hveq]
      rw [if_neg (by norm_num), if_neg (by omega)]
      rfl
    · have hlen' : (352 : Nat) ≤ buf.length := hlen
      rw [hveq]
      norm_num
      rw [taskstats_v10_from_byte_array, hveq]
      rw [if_neg (by norm_num), if_neg (by omega)]
      rfl
    · have hlen' : (368 : Nat) ≤ buf.length := hlen
      rw [hveq]
      norm_num
      rw [taskstats_v11_from_byte_array, hveq]
      rw [if_neg (by norm_num), if_neg (by omega)]
      rfl

/-- C6 witness: a payload with leading u16 = 7 fails with
UnsupportedVersion(7). -/
theorem taskstats_version_dispatch_witness :
    TaskStatsRaw.from_byte_array [7, 0] = some (.error (.unsupportedVersion 7)) :=
  (taskstats_version_dispatch [7, 0] (by decide)).1 (by decide)

/-! ### C7: processing of a per-thread taskstats reply -/

/-- GetResultAttribute examines exactly the FIRST attribute of the wanted
type: the reply's fate is decided by `find?` on the type. -/
theorem get_result_attribute_eq_find (attrs : List TaskStatsAttribute) (t : Nat) :
    get_result_attribute attrs t =
      match attrs.find? (fun a => decide (a.attr_type = t)) with
      | none => some none
      | some a =>
        match taskstats_result_attr_try_from a with
        | none => none
        | some (.error _) => some none
        | some (.ok r) => some (some r) := by
  induction attrs with
  | nil => rfl
  | cons a rest ih =>
    simp only [get_result_attribute, List.find?]
    by_cases h : a.attr_type = t
    · rw [if_pos h]
      have : (decide (a.attr_type = t)) = true := by simp [h]
      rw [this]
    · rw [if_neg h]
      have : (decide (a.attr_type = t)) = false := by simp [h]
      rw [this]
      exact ih

/-- C7 amended: for every reply to a per-thread query, with `first` the
first attribute of kind AggrPid (type 4) in the response: (a) when no such
attribute exists the call fails NoAggrPid; (b) when `first` exists but its
parse fails (e.g. its embedded stats bytes carry a bad version) the call
ALSO fails NoAggrPid — not WrongTid, even if the attribute's tid bytes
differ from the request; (c) when `first` parses to AggrPid(tid, stats) and
tid differs from the requested realTid the call fails WrongTid(tid); (d) a
TaskStats is returned only when the parsed tid equals the request. -/
theorem thread_taskstats_reply_cases (realTid : Nat) (respond : TaskStatsMessage) :
    (respond.attributes.find? (fun a => decide (a.attr_type = 4)) = none →
      get_thread_taskstats_reply realTid respond =
        some (.error (.noAggrPidAttribute respond)))
    ∧ (∀ a e, respond.attributes.find? (fun a => decide (a.attr_type = 4)) = some a →
        taskstats_result_attr_try_from a = some (.error e) →
        get_thread_taskstats_reply realTid respond =
          some (.error (.noAggrPidAttribute respond)))
    ∧ (∀ a tid stats, respond.attributes.find? (fun a => decide (a.attr_type = 4)) = some a →
        taskstats_result_attr_try_from a = some (.ok (.aggrPid tid stats)) →
        tid ≠ realTid →
        get_thread_taskstats_reply realTid respond = some (.error (.wrongTid tid)))
    ∧ (∀ stats, get_thread_taskstats_reply realTid respond = some (.ok stats) →
        ∃ a, respond.attributes.find? (fun a => decide (a.attr_type = 4)) = some a ∧
          taskstats_result_attr_try_from a = some (.ok (.aggrPid realTid stats))) := by
  have hfind := get_result_attribute_eq_find respond.attributes 4
  refine ⟨?_, ?_, ?_, ?_⟩
  · intro h
    rw [h] at hfind
    simp [get_thread_taskstats_reply, hfind]
  · intro a e hf ht
    simp [get_thread_taskstats_reply, hfind, hf, ht]
  · intro a tid stats hf ht hne
    simp [get_thread_taskstats_reply, hfind, hf, ht, hne]
  · intro stats h
    rw [get_thread_taskstats_reply] at h
    rw [hfind] at h
    cases hf : respond.attributes.find? (fun a => decide (a.attr_type = 4)) with
    | none =>
      rw [hf] at h
      simp at h
    | some a =>
      rw [hf] at h
      dsimp only at h
      refine ⟨a, rfl, ?_⟩
      cases ht : taskstats_result_attr_try_from a with
      | none => rw [ht] at h; simp at h
      | some res =>
        rw [ht] at h
        cases res with
        | error e => simp at h
        | ok r =>
          cases r with
          | aggrPid tid st =>
            simp only [] at h
            by_cases htid : tid ≠ realTid
            · rw [if_pos htid] at h
              simp at h
            · rw [if_neg htid] at h
              injection h with h
              injection h with h
              subst h
              push_neg at htid
              rw [htid]
          | unspecified => simp at h
          | pid x => simp at h
          | tgid x => simp at h
          | stats s => simp at h
          | aggrTgid p s => simp at h
          | null => simp at h

/-- The malformed reply of the C7 counterexample: one attribute of kind
AggrPid whose tid bytes decode to 5 but whose embedded stats carry
unsupported version 7. -/
def c7BadMsg : TaskStatsMessage :=
  ⟨1, 22, [⟨4, [0, 0, 0, 0, 5, 0, 0, 0, 0, 0, 0, 0, 7, 0]⟩]⟩

/-- C7 counterexample: the reply DOES carry an AggrPid result attribute and
its inner tid (5) differs from the requested realTid (1), yet the call
fails NoAggrPid — not WrongTid — because the attribute's embedded stats
fail to parse and the lookup's `.ok()?` collapses that to "no attribute". -/
theorem thread_taskstats_wrong_tid_not_reported :
    c7BadMsg.attributes.find? (fun a => decide (a.attr_type = 4)) =
      some ⟨4, [0, 0, 0, 0, 5, 0, 0, 0, 0, 0, 0, 0, 7, 0]⟩ ∧
    u32le 5 0 0 0 = 5 ∧ (5 : Nat) ≠ 1 ∧
    get_thread_taskstats_reply 1 c7BadMsg = some (.error (.noAggrPidAttribute c7BadMsg)) ∧
    get_thread_taskstats_reply 1 c7BadMsg ≠ some (.error (.wrongTid 5)) := by
  decide

/-- A well-formed version-8 stats payload (328 bytes). -/
def c7StatsBytes : List Nat := 8 :: 0 :: List.replicate 326 0

/-- A well-formed reply whose AggrPid attribute parses, with tid 5. -/
def c7GoodMsg : TaskStatsMessage :=
  ⟨1, 22, [⟨4, [0, 0, 0, 0, 5, 0, 0, 0, 0, 0, 0, 0] ++ c7StatsBytes⟩]⟩

set_option maxRecDepth 8192 in
/-- C7 witness: the amended claim at a concrete well-formed reply whose
parsed tid (5) differs from the requested realTid (1): WrongTid(5). -/
theorem thread_taskstats_reply_cases_witness :
    get_thread_taskstats_reply 1 c7GoodMsg = some (.error (.wrongTid 5)) :=
  (thread_taskstats_reply_cases 1 c7GoodMsg).2.2.1
    ⟨4, [0, 0, 0, 0, 5, 0, 0, 0, 0, 0, 0, 0] ++ c7StatsBytes⟩ 5 (.v8 c7StatsBytes)
    (by decide) (by decide) (by decide)

/-! ### Netlink message codec from src/src/netlink.rs and src/netlink/generic.rs -/

/-- netlink.rs NetlinkMessageFlag.  Several modifier flags share on-wire
bit values (Root = Replace = NoRecursive = Capped = 0x100, Match = Excl =
AckTlvs = 0x200, Atomic = Create = 0x400, Dump = Root|Match = 0x300). -/
inductive NetlinkMessageFlag where
  | request
  | multipart
  | ack
  | echo
  | dumpInconsistent
  | dumpFiltered
  | root
  | matchAll
  | atomic
  | dump
  | replace
  | excl
  | create
  | append
  | noRecursive
  | capped
  | ackTlvs
  deriving DecidableEq, Repr

/-- NetlinkMessageFlag::to_u16. -/
def NetlinkMessageFlag.to_u16 : NetlinkMessageFlag → Nat
  | request => 0x01
  | multipart => 0x02
  | ack => 0x04
  | echo => 0x08
  | dumpInconsistent => 0x10
  | dumpFiltered => 0x20
  | root => 0x100
  | matchAll => 0x200
  | atomic => 0x400
  | dump => 0x300
  | replace => 0x100
  | excl => 0x200
  | create => 0x400
  | append => 0x800
  | noRecursive => 0x100
  | capped => 0x100
  | ackTlvs => 0x200

/-- The exact sequence of (mask, flag) tests NetlinkMessageFlag::from_u16
runs, in source order. -/
def netlink_flag_tests : List (Nat × NetlinkMessageFlag) :=
  [(0x01, .request), (0x02, .multipart), (0x04, .ack), (0x08, .echo),
   (0x10, .dumpInconsistent), (0x20, .dumpFiltered),
   (0x100, .root), (0x200, .matchAll), (0x400, .atomic), (0x300, .dump),
   (0x100, .replace), (0x200, .excl), (0x400, .create), (0x800, .append),
   (0x100, .noRecursive), (0x100, .capped), (0x200, .ackTlvs)]

/-- generic.rs GenericError (the variant the modelled decoder can hit). -/
inductive GenericError where
  | headerError (buf : List Nat)
  deriving DecidableEq, Repr

/-- netlink.rs NetlinkError (the variants the modelled paths produce). -/
inductive NetlinkError where
  | msgHeaderErr
  | unknownMsgFlags (bits : Nat)
  | kernelErr (code : Nat)
  | genericErr (e : GenericError)
  deriving DecidableEq, Repr

/-- NetlinkMessageFlag::from_u16: run every test, accumulate the recognised
bits in `tmp`, reject when bits remain (`tmp ^ value`). -/
def NetlinkMessageFlag.from_u16 (value : Nat) :
    Except NetlinkError (List NetlinkMessageFlag) :=
  let rt := netlink_flag_tests.foldl
    (fun acc mf => if value &&& mf.1 ≠ 0 then (acc.1 ++ [mf.2], acc.2 ||| mf.1) else acc)
    ([], 0)
  if rt.2 ≠ value then .error (.unknownMsgFlags (rt.2 ^^^ value))
  else .ok rt.1

/-- generic.rs GenericNetlinkMessageAttribute: u16 type plus raw payload. -/
structure GenericNetlinkMessageAttribute where
  attributeType : Nat
  payload : List Nat
  deriving DecidableEq, Repr

/-- NetlinkAttributeHeader::to_byte_array: {u16 length, u16 type} where
length counts the 4-byte header and is truncated by the source's `as u16`
cast. -/
def netlink_attr_header_bytes (payload_len attr_type : Nat) : List Nat :=
  u16_bytes ((payload_len + 4) % 65536) ++ u16_bytes attr_type

/-- GenericNetlinkMessageAttribute::ToByteArray: header, align to 4 (a
no-op after the 4-byte header, kept as in the source), then the payload. -/
def GenericNetlinkMessageAttribute.to_byte_array
    (a : GenericNetlinkMessageAttribute) : List Nat :=
  align_buffer (netlink_attr_header_bytes a.payload.length a.attributeType) 4 ++ a.payload

/-- generic.rs GenericNetlinkMessage. -/
structure GenericNetlinkMessage where
  messageType : Nat
  command : Nat
  version : Nat
  attributes : List GenericNetlinkMessageAttribute
  deriving DecidableEq, Repr

/-- GenericNetlinkMessageHeader::ToByteArray: {u8 command, u8 version,
u16 reserved = 0}. -/
def generic_header_bytes (command version : Nat) : List Nat :=
  [command % 256, version % 256, 0, 0]

/-- The attribute-appending loop of GenericNetlinkMessage::ToByteArray:
align the buffer to 4 before each attribute. -/
def generic_encode_attrs_from (pre : List Nat)
    (attrs : List GenericNetlinkMessageAttribute) : List Nat :=
  attrs.foldl (fun acc attr => align_buffer acc 4 ++ attr.to_byte_array) pre

/-- GenericNetlinkMessage::ToByteArray. -/
def GenericNetlinkMessage.to_byte_array (m : GenericNetlinkMessage) : List Nat :=
  generic_encode_attrs_from (generic_header_bytes m.command m.version) m.attributes

/-- The attribute-decoding loop of GenericNetlinkMessage::FromByteArray,
with fuel.  `none` models both the panics of the unchecked reads (size
field, attribute slice, attribute header) and non-termination of the loop
(a zero-size attribute at an aligned index). -/
def generic_attrs_decode (buf : List Nat) (idx : Nat)
    (acc : List GenericNetlinkMessageAttribute) (fuel : Nat) :
    Option (List GenericNetlinkMessageAttribute) :=
  match fuel with
  | 0 => none
  | fuel + 1 =>
    if idx < buf.length then
      if 2 ≤ (buf.drop idx).length then
        if u16le ((buf.drop idx).getD 0 0) ((buf.drop idx).getD 1 0) ≤ (buf.drop idx).length then
          if 4 ≤ u16le ((buf.drop idx).getD 0 0) ((buf.drop idx).getD 1 0) then
            generic_attrs_decode buf
              (next_align_num (idx + u16le ((buf.drop idx).getD 0 0) ((buf.drop idx).getD 1 0)) 4)
              (acc ++ [⟨u16le
                  (((buf.drop idx).take (u16le ((buf.drop idx).getD 0 0) ((buf.drop idx).getD 1 0))).getD 2 0)
                  (((buf.drop idx).take (u16le ((buf.drop idx).getD 0 0) ((buf.drop idx).getD 1 0))).getD 3 0),
                ((buf.drop idx).take (u16le ((buf.drop idx).getD 0 0) ((buf.drop idx).getD 1 0))).drop 4⟩])
              fuel
          else none
        else none
      else none
    else some acc

/-- GenericNetlinkMessage::FromByteArray: header (command byte), then the
attribute loop from the aligned offset 4; the message type comes from the
caller and the version is fixed by the constructor. -/
def GenericNetlinkMessage.from_byte_array (buf : List Nat) (messageType : Nat) :
    Option (Except GenericError GenericNetlinkMessage) :=
  if buf.length < 4 then some (.error (.headerError buf))
  else
    match generic_attrs_decode buf (next_align_num 4 4) [] (buf.length + 1) with
    | none => none
    | some attrs => some (.ok ⟨messageType, buf.getD 0 0, 2, attrs⟩)

/-- netlink.rs NetlinkMessage (payload always generic, as in the source's
only implemented payload type). -/
structure NetlinkMessage where
  msg_type : Nat
  flags : List NetlinkMessageFlag
  payload : GenericNetlinkMessage
  deriving DecidableEq, Repr

/-- The OR-accumulation of the flag list in NetlinkMessage::to_byte_array. -/
def netlink_flags_value (flags : List NetlinkMessageFlag) : Nat :=
  flags.foldl (fun acc f => acc ||| f.to_u16) 0

/-- NetlinkMessageHeader::to_byte_array: {u32 len, u16 type, u16 flags,
u32 seq, u32 pid} in native little-endian order. -/
def netlink_header_bytes (msg_len msg_type msg_flags seq pid : Nat) : List Nat :=
  u32_bytes msg_len ++ u16_bytes msg_type ++ u16_bytes msg_flags ++
    u32_bytes seq ++ u32_bytes pid

/-- NetlinkMessage::to_byte_array: header (msg_len = 16 + payload length,
cast to u32), alignment padding (a no-op after the 16-byte header), then
the generic payload. -/
def NetlinkMessage.to_byte_array (m : NetlinkMessage) : List Nat :=
  align_buffer
    (netlink_header_bytes ((16 + m.payload.to_byte_array.length) % 4294967296)
      m.msg_type (netlink_flags_value m.flags) 0 0) 4
    ++ m.payload.to_byte_array

/-- NetlinkMessage::from_byte_array (payload type Generic): parse the
header, decode the flag bits, report a kernel error when the type is the
standard ERROR type (2), otherwise decode the generic payload from the
slice of msg_len − 16 bytes at offset 16.  `none` models the panics of the
unchecked slices; the kernel error code is kept as its raw little-endian
u32 reading. -/
def NetlinkMessage.from_byte_array (buf : List Nat) :
    Option (Except NetlinkError NetlinkMessage) :=
  if buf.length < 16 then some (.error .msgHeaderErr)
  else
    let msg_len := u32le (buf.getD 0 0) (buf.getD 1 0) (buf.getD 2 0) (buf.getD 3 0)
    let msg_type := u16le (buf.getD 4 0) (buf.getD 5 0)
    let msg_flags := u16le (buf.getD 6 0) (buf.getD 7 0)
    let payload_start := next_align_num 16 4
    let payload_size := usize_sub msg_len payload_start
    match NetlinkMessageFlag.from_u16 msg_flags with
    | .error e => some (.error e)
    | .ok flags =>
      if msg_type = 2 then
        if payload_start + 4 ≤ buf.length then
          some (.error (.kernelErr (u32le (buf.getD payload_start 0)
            (buf.getD (payload_start + 1) 0) (buf.getD (payload_start + 2) 0)
            (buf.getD (payload_start + 3) 0))))
        else none
      else
        if payload_start + payload_size ≤ buf.length then
          match GenericNetlinkMessage.from_byte_array
              ((buf.drop payload_start).take payload_size) msg_type with
          | none => none
          | some (.error e) => some (.error (.genericErr e))
          | some (.ok payload) => some (.ok ⟨msg_type, flags, payload⟩)
        else none

/-! #### C4 round-trip helper lemmas -/

theorem next_align_num_ge (l : Nat) : l ≤ next_align_num l 4 := by
  unfold next_align_num
  omega

theorem align_buffer_four_length (l : List Nat) :
    (align_buffer l 4).length = next_align_num l.length 4 := by
  have := next_align_num_ge l.length
  simp [align_buffer]
  omega

theorem align_buffer_eq_append (l : List Nat) :
    align_buffer l 4 = l ++ List.replicate (next_align_num l.length 4 - l.length) 0 := rfl

/-- The explicit byte shape of an encoded attribute. -/
theorem attr_to_byte_array_eq (a : GenericNetlinkMessageAttribute) :
    a.to_byte_array =
      [(a.payload.length + 4) % 65536 % 256, (a.payload.length + 4) % 65536 / 256 % 256,
       a.attributeType % 256, a.attributeType / 256 % 256] ++ a.payload := by
  have h4 : next_align_num 4 4 = 4 := by decide
  simp [GenericNetlinkMessageAttribute.to_byte_array, netlink_attr_header_bytes, u16_bytes,
    align_buffer, h4]

theorem attr_to_byte_array_length (a : GenericNetlinkMessageAttribute) :
    a.to_byte_array.length = 4 + a.payload.length := by
  rw [attr_to_byte_array_eq]
  simp only [List.length_append, List.length_cons, List.length_nil]

theorem generic_encode_attrs_from_nil (pre : List Nat) :
    generic_encode_attrs_from pre [] = pre := rfl

theorem generic_encode_attrs_from_cons (pre : List Nat)
    (a : GenericNetlinkMessageAttribute) (rest : List GenericNetlinkMessageAttribute) :
    generic_encode_attrs_from pre (a :: rest) =
      generic_encode_attrs_from (align_buffer pre 4 ++ a.to_byte_array) rest := rfl

/-- Everything the encoder appends extends the given prefix. -/
theorem generic_encode_attrs_from_prefix (attrs : List GenericNetlinkMessageAttribute) :
    ∀ pre : List Nat, ∃ s, generic_encode_attrs_from pre attrs = pre ++ s := by
  induction attrs with
  | nil => exact fun pre => ⟨[], by simp [generic_encode_attrs_from_nil]⟩
  | cons a rest ih =>
    intro pre
    obtain ⟨s, hs⟩ := ih (align_buffer pre 4 ++ a.to_byte_array)
    refine ⟨List.replicate (next_align_num pre.length 4 - pre.length) 0 ++
      (a.to_byte_array ++ s), ?_⟩
    rw [generic_encode_attrs_from_cons, hs, align_buffer_eq_append]
    simp

theorem generic_encode_attrs_from_length_ge (attrs : List GenericNetlinkMessageAttribute) :
    ∀ pre : List Nat,
      pre.length + 4 * attrs.length ≤ (generic_encode_attrs_from pre attrs).length := by
  induction attrs with
  | nil => intro pre; simp [generic_encode_attrs_from_nil]
  | cons a rest ih =>
    intro pre
    rw [generic_encode_attrs_from_cons]
    have h1 := ih (align_buffer pre 4 ++ a.to_byte_array)
    have h2 := align_buffer_four_length pre
    have h3 := next_align_num_ge pre.length
    have h4 := attr_to_byte_array_length a
    simp only [List.length_append, List.length_cons] at h1 ⊢
    omega

/-- Decoding the attribute area the encoder produced recovers exactly the
attribute list. -/
theorem generic_attrs_decode_correct (attrs : List GenericNetlinkMessageAttribute) :
    ∀ (pre : List Nat) (acc : List GenericNetlinkMessageAttribute) (fuel : Nat),
      (∀ a ∈ attrs, a.attributeType < 65536 ∧ a.payload.length + 4 ≤ 65535) →
      attrs.length < fuel →
      generic_attrs_decode (generic_encode_attrs_from pre attrs)
        (next_align_num pre.length 4) acc fuel = some (acc ++ attrs) := by
  induction attrs with
  | nil =>
    intro pre acc fuel _ hfuel
    cases fuel with
    | zero => omega
    | succ n =>
      rw [generic_encode_attrs_from_nil, generic_attrs_decode]
      rw [if_neg (by have := next_align_num_ge pre.length; omega)]
      simp
  | cons a rest ih =>
    intro pre acc fuel hwf hfuel
    cases fuel with
    | zero => omega
    | succ n =>
      have hwa := hwf a (by simp)
      rw [generic_encode_attrs_from_cons]
      obtain ⟨s, hs⟩ :=
        generic_encode_attrs_from_prefix rest (align_buffer pre 4 ++ a.to_byte_array)
      rw [hs]
      have hPlen : (align_buffer pre 4).length = next_align_num pre.length 4 :=
        align_buffer_four_length pre
      have hBlen : a.to_byte_array.length = 4 + a.payload.length :=
        attr_to_byte_array_length a
      have hBeq := attr_to_byte_array_eq a
      have hdrop : ((align_buffer pre 4 ++ a.to_byte_array) ++ s).drop
          (next_align_num pre.length 4) = a.to_byte_array ++ s := by
        rw [List.append_assoc, ← hPlen]
        exact List.drop_left _ _
      have hg0 : (a.to_byte_array ++ s).getD 0 0 = (a.payload.length + 4) % 65536 % 256 := by
        rw [hBeq]; rfl
      have hg1 : (a.to_byte_array ++ s).getD 1 0 =
          (a.payload.length + 4) % 65536 / 256 % 256 := by
        rw [hBeq]; rfl
      have htype : u16le (a.to_byte_array.getD 2 0) (a.to_byte_array.getD 3 0)
          = a.attributeType := by
        rw [hBeq]
        show u16le (a.attributeType % 256) (a.attributeType / 256 % 256) = _
        unfold u16le
        omega
      have hdrop4 : a.to_byte_array.drop 4 = a.payload := by
        rw [hBeq]; rfl
      rw [generic_attrs_decode]
      rw [if_pos (by
        simp only [List.length_append]
        omega)]
      rw [hdrop]
      set sz := u16le ((a.to_byte_array ++ s).getD 0 0) ((a.to_byte_array ++ s).getD 1 0)
        with hszdef
      have hsz : sz = a.payload.length + 4 := by
        rw [hszdef, hg0, hg1]
        unfold u16le
        omega
      rw [if_pos (by simp only [List.length_append]; omega)]
      rw [if_pos (by simp only [List.length_append]; omega : sz ≤ (a.to_byte_array ++ s).length)]
      rw [if_pos (by omega : 4 ≤ sz)]
      have htake : (a.to_byte_array ++ s).take sz = a.to_byte_array := by
        have hlen : a.to_byte_array.length = a.payload.length + 4 := by omega
        rw [hsz, ← hlen]
        exact List.take_left _ _
      rw [htake, htype, hdrop4]
      have hidx : next_align_num (next_align_num pre.length 4 + sz) 4 =
          next_align_num ((align_buffer pre 4 ++ a.to_byte_array)).length 4 := by
        rw [hsz]
        simp only [List.length_append, hPlen, hBlen]
        congr 1
        omega
      rw [hidx, ← hs]
      have happ := ih (align_buffer pre 4 ++ a.to_byte_array)
        (acc ++ [({ attributeType := a.attributeType, payload := a.payload } :
          GenericNetlinkMessageAttribute)]) n
        (fun b hb => hwf b (by simp [hb])) (by simpa using hfuel)
      rw [happ]
      simp

/-- Decoding the encoding of a generic-netlink message built from a command
and attribute list (so with the constructor's version 2) recovers the
message. -/
theorem generic_message_roundtrip (t c : Nat)
    (attrs : List GenericNetlinkMessageAttribute) (hc : c < 256)
    (hattrs : ∀ a ∈ attrs, a.attributeType < 65536 ∧ a.payload.length + 4 ≤ 65535) :
    GenericNetlinkMessage.from_byte_array
        (GenericNetlinkMessage.to_byte_array ⟨t, c, 2, attrs⟩) t =
      some (.ok ⟨t, c, 2, attrs⟩) := by
  have hlen4 : (generic_header_bytes c 2).length = 4 := by
    simp [generic_header_bytes]
  have hge := generic_encode_attrs_from_length_ge attrs (generic_header_bytes c 2)
  rw [hlen4] at hge
  obtain ⟨s, hs⟩ := generic_encode_attrs_from_prefix attrs (generic_header_bytes c 2)
  have hcmd : (generic_encode_attrs_from (generic_header_bytes c 2) attrs).getD 0 0 = c := by
    rw [hs]
    have : ((generic_header_bytes c 2) ++ s).getD 0 0 = c % 256 := by
      simp [generic_header_bytes]
    rw [this]
    omega
  have hdec := generic_attrs_decode_correct attrs (generic_header_bytes c 2) []
    ((generic_encode_attrs_from (generic_header_bytes c 2) attrs).length + 1) hattrs (by omega)
  rw [hlen4] at hdec
  show GenericNetlinkMessage.from_byte_array
      (generic_encode_attrs_from (generic_header_bytes c 2) attrs) t = _
  rw [GenericNetlinkMessage.from_byte_array]
  rw [if_neg (by omega)]
  rw [hdec]
  dsimp only
  rw [List.nil_append, hcmd]

/-! #### The netlink flag bits -/

/-- The six flags whose bit values do not alias any other flag. -/
def netlink_basic_flags : List NetlinkMessageFlag :=
  [.request, .multipart, .ack, .echo, .dumpInconsistent, .dumpFiltered]

theorem lor_eq_zero_iff (a b : Nat) : a ||| b = 0 ↔ a = 0 ∧ b = 0 := by
  constructor
  · intro h
    constructor <;> apply Nat.eq_of_testBit_eq <;> intro k <;>
      have hk := congrArg (fun x => Nat.testBit x k) h <;>
      simp only [Nat.testBit_lor, Nat.zero_testBit, Bool.or_eq_false_iff] at hk
    · simp [hk.1]
    · simp [hk.2]
  · rintro ⟨h1, h2⟩
    simp [h1, h2]

theorem basic_flag_and_iff :
    ∀ f ∈ netlink_basic_flags, ∀ g ∈ netlink_basic_flags,
      (f.to_u16 &&& g.to_u16 ≠ 0 ↔ f = g) := by decide

/-- Which bits of the OR-accumulated flag value are set: exactly the bits
of the member flags. -/
theorem foldl_or_and_ne_zero (g : NetlinkMessageFlag) (hg : g ∈ netlink_basic_flags) :
    ∀ (flags : List NetlinkMessageFlag) (acc : Nat),
      (∀ f ∈ flags, f ∈ netlink_basic_flags) →
      ((flags.foldl (fun a f => a ||| f.to_u16) acc) &&& g.to_u16 ≠ 0 ↔
        (acc &&& g.to_u16 ≠ 0 ∨ g ∈ flags)) := by
  intro flags
  induction flags with
  | nil => intro acc _; simp
  | cons a rest ih =>
    intro acc h
    have ha := h a (by simp)
    rw [List.foldl_cons]
    rw [ih (acc ||| a.to_u16) (fun f hf => h f (by simp [hf]))]
    rw [Nat.and_distrib_right]
    have hsplit : (acc &&& g.to_u16) ||| (a.to_u16 &&& g.to_u16) ≠ 0 ↔
        (acc &&& g.to_u16 ≠ 0 ∨ a.to_u16 &&& g.to_u16 ≠ 0) := by
      rw [← not_and_or, not_iff_not]
      exact lor_eq_zero_iff _ _
    rw [hsplit, basic_flag_and_iff a ha g hg]
    simp only [List.mem_cons]
    constructor
    · rintro (⟨h1 | h1⟩ | h1)
      · exact Or.inl h1
      · exact Or.inr (Or.inl h1.symm)
      · exact Or.inr (Or.inr h1)
    · rintro (h1 | h1 | h1)
      · exact Or.inl (Or.inl h1)
      · exact Or.inl (Or.inr h1.symm)
      · exact Or.inr h1

theorem netlink_flags_value_lt (flags : List NetlinkMessageFlag)
    (h : ∀ f ∈ flags, f ∈ netlink_basic_flags) : netlink_flags_value flags < 64 := by
  have haux : ∀ (fs : List NetlinkMessageFlag) (acc : Nat), acc < 2 ^ 6 →
      (∀ f ∈ fs, f ∈ netlink_basic_flags) →
      fs.foldl (fun a f => a ||| f.to_u16) acc < 2 ^ 6 := by
    intro fs
    induction fs with
    | nil => intro acc hacc _; simpa using hacc
    | cons a rest ih =>
      intro acc hacc hmem
      rw [List.foldl_cons]
      refine ih _ (Nat.or_lt_two_pow hacc ?_) (fun f hf => hmem f (by simp [hf]))
      have hb : ∀ f ∈ netlink_basic_flags, f.to_u16 < 2 ^ 6 := by decide
      exact hb a (hmem a (by simp))
  have := haux flags 0 (by norm_num) h
  simpa using this

/-- The list from_u16 returns for a value below 64. -/
def basic_decode (v : Nat) : List NetlinkMessageFlag :=
  netlink_basic_flags.filter (fun f => decide (v &&& f.to_u16 ≠ 0))

theorem from_u16_small : ∀ v < 64, NetlinkMessageFlag.from_u16 v = .ok (basic_decode v) := by
  decide

/-- Decoding the OR of a basic flag list yields a list with the same
members. -/
theorem mem_basic_decode_iff (flags : List NetlinkMessageFlag)
    (hflags : ∀ f ∈ flags, f ∈ netlink_basic_flags) (f : NetlinkMessageFlag) :
    f ∈ basic_decode (netlink_flags_value flags) ↔ f ∈ flags := by
  by_cases hb : f ∈ netlink_basic_flags
  · have hvv := foldl_or_and_ne_zero f hb flags 0 hflags
    rw [Nat.zero_and] at hvv
    simp only [ne_eq, not_true_eq_false, false_or] at hvv
    simp only [basic_decode, List.mem_filter, hb, true_and, decide_eq_true_eq]
    exact hvv
  · constructor
    · intro hf
      exact absurd (List.mem_of_mem_filter hf) hb
    · intro hf
      exact absurd (hflags f hf) hb

/-- C4 amended: encode + decode of a netlink message built from a
generic-netlink payload yields the original command, flag set (as a set:
the decoder emits a canonical order) and attribute list, PROVIDED the
message type is a representable family id other than the standard error
type 2, the flags are drawn from the six non-modifier flags (Request,
Multipart, Ack, Echo, DumpInconsistent, DumpFiltered — the GET/NEW modifier
flags share bit values and cannot round-trip), each attribute fits its u16
length field, and the total message fits the u32 length field. -/
theorem netlink_message_roundtrip
    (msgType command : Nat) (flags : List NetlinkMessageFlag)
    (attrs : List GenericNetlinkMessageAttribute)
    (htype : msgType < 65536) (hterr : msgType ≠ 2) (hcmd : command < 256)
    (hflags : ∀ f ∈ flags, f ∈ netlink_basic_flags)
    (hattrs : ∀ a ∈ attrs, a.attributeType < 65536 ∧ a.payload.length + 4 ≤ 65535)
    (hsize : 16 + (GenericNetlinkMessage.to_byte_array ⟨msgType, command, 2, attrs⟩).length
      < 4294967296) :
    ∃ m', NetlinkMessage.from_byte_array
        (NetlinkMessage.to_byte_array ⟨msgType, flags, ⟨msgType, command, 2, attrs⟩⟩) =
        some (.ok m') ∧
      m'.msg_type = msgType ∧
      m'.payload.command = command ∧
      m'.payload.attributes = attrs ∧
      (∀ f, f ∈ m'.flags ↔ f ∈ flags) := by
  have hv64 : netlink_flags_value flags < 64 := netlink_flags_value_lt flags hflags
  have h16 : next_align_num 16 4 = 16 := by decide
  have hhdr : netlink_header_bytes
      ((16 + (GenericNetlinkMessage.to_byte_array ⟨msgType, command, 2, attrs⟩).length) %
        4294967296) msgType (netlink_flags_value flags) 0 0 =
      [(16 + (GenericNetlinkMessage.to_byte_array ⟨msgType, command, 2, attrs⟩).length) %
         4294967296 % 256,
       (16 + (GenericNetlinkMessage.to_byte_array ⟨msgType, command, 2, attrs⟩).length) %
         4294967296 / 256 % 256,
       (16 + (GenericNetlinkMessage.to_byte_array ⟨msgType, command, 2, attrs⟩).length) %
         4294967296 / 65536 % 256,
       (16 + (GenericNetlinkMessage.to_byte_array ⟨msgType, command, 2, attrs⟩).length) %
         4294967296 / 16777216 % 256,
       msgType % 256, msgType / 256 % 256,
       netlink_flags_value flags % 256, netlink_flags_value flags / 256 % 256,
       0, 0, 0, 0, 0, 0, 0, 0] := by
    simp [netlink_header_bytes, u32_bytes, u16_bytes]
  have hhdrlen : (netlink_header_bytes
      ((16 + (GenericNetlinkMessage.to_byte_array ⟨msgType, command, 2, attrs⟩).length) %
        4294967296) msgType (netlink_flags_value flags) 0 0).length = 16 := by
    rw [hhdr]
    rfl
  have hbuf : NetlinkMessage.to_byte_array ⟨msgType, flags, ⟨msgType, command, 2, attrs⟩⟩ =
      netlink_header_bytes
        ((16 + (GenericNetlinkMessage.to_byte_array ⟨msgType, command, 2, attrs⟩).length) %
          4294967296) msgType (netlink_flags_value flags) 0 0 ++
        GenericNetlinkMessage.to_byte_array ⟨msgType, command, 2, attrs⟩ := by
    show align_buffer _ 4 ++ _ = _
    rw [align_buffer_eq_append, hhdrlen, h16]
    simp
  refine ⟨⟨msgType, basic_decode (netlink_flags_value flags), ⟨msgType, command, 2, attrs⟩⟩,
    ?_, rfl, rfl, rfl, fun f => mem_basic_decode_iff flags hflags f⟩
  rw [hbuf]
  have hlenbuf : (netlink_header_bytes
      ((16 + (GenericNetlinkMessage.to_byte_array ⟨msgType, command, 2, attrs⟩).length) %
        4294967296) msgType (netlink_flags_value flags) 0 0 ++
      GenericNetlinkMessage.to_byte_array ⟨msgType, command, 2, attrs⟩).length =
      16 + (GenericNetlinkMessage.to_byte_array ⟨msgType, command, 2, attrs⟩).length := by
    rw [List.length_append, hhdrlen]
  simp only [NetlinkMessage.from_byte_array]
  rw [if_neg (by omega)]
  have hg0 : (netlink_header_bytes
      ((16 + (GenericNetlinkMessage.to_byte_array ⟨msgType, command, 2, attrs⟩).length) %
        4294967296) msgType (netlink_flags_value flags) 0 0 ++
      GenericNetlinkMessage.to_byte_array ⟨msgType, command, 2, attrs⟩).getD 0 0 =
      (16 + (GenericNetlinkMessage.to_byte_array ⟨msgType, command, 2, attrs⟩).length) %
        4294967296 % 256 := by
    rw [hhdr]
    rfl
  have hg1 : (netlink_header_bytes
      ((16 + (GenericNetlinkMessage.to_byte_array ⟨msgType, command, 2, attrs⟩).length) %
        4294967296) msgType (netlink_flags_value flags) 0 0 ++
      GenericNetlinkMessage.to_byte_array ⟨msgType, command, 2, attrs⟩).getD 1 0 =
      (16 + (GenericNetlinkMessage.to_byte_array ⟨msgType, command, 2, attrs⟩).length) %
        4294967296 / 256 % 256 := by
    rw [hhdr]
    rfl
  have hg2 : (netlink_header_bytes
      ((16 + (GenericNetlinkMessage.to_byte_array ⟨msgType, command, 2, attrs⟩).length) %
        4294967296) msgType (netlink_flags_value flags) 0 0 ++
      GenericNetlinkMessage.to_byte_array ⟨msgType, command, 2, attrs⟩).getD 2 0 =
      (16 + (GenericNetlinkMessage.to_byte_array ⟨msgType, command, 2, attrs⟩).length) %
        4294967296 / 65536 % 256 := by
    rw [hhdr]
    rfl
  have hg3 : (netlink_header_bytes
      ((16 + (GenericNetlinkMessage.to_byte_array ⟨msgType, command, 2, attrs⟩).length) %
        4294967296) msgType (netlink_flags_value flags) 0 0 ++
      GenericNetlinkMessage.to_byte_array ⟨msgType, command, 2, attrs⟩).getD 3 0 =
      (16 + (GenericNetlinkMessage.to_byte_array ⟨msgType, command, 2, attrs⟩).length) %
        4294967296 / 16777216 % 256 := by
    rw [hhdr]
    rfl
  have hg4 : (netlink_header_bytes
      ((16 + (GenericNetlinkMessage.to_byte_array ⟨msgType, command, 2, attrs⟩).length) %
        4294967296) msgType (netlink_flags_value flags) 0 0 ++
      GenericNetlinkMessage.to_byte_array ⟨msgType, command, 2, attrs⟩).getD 4 0 =
      msgType % 256 := by
    rw [hhdr]
    rfl
  have hg5 : (netlink_header_bytes
      ((16 + (GenericNetlinkMessage.to_byte_array ⟨msgType, command, 2, attrs⟩).length) %
        4294967296) msgType (netlink_flags_value flags) 0 0 ++
      GenericNetlinkMessage.to_byte_array ⟨msgType, command, 2, attrs⟩).getD 5 0 =
      msgType / 256 % 256 := by
    rw [hhdr]
    rfl
  have hg6 : (netlink_header_bytes
      ((16 + (GenericNetlinkMessage.to_byte_array ⟨msgType, command, 2, attrs⟩).length) %
        4294967296) msgType (netlink_flags_value flags) 0 0 ++
      GenericNetlinkMessage.to_byte_array ⟨msgType, command, 2, attrs⟩).getD 6 0 =
      netlink_flags_value flags % 256 := by
    rw [hhdr]
    rfl
  have hg7 : (netlink_header_bytes
      ((16 + (GenericNetlinkMessage.to_byte_array ⟨msgType, command, 2, attrs⟩).length) %
        4294967296) msgType (netlink_flags_value flags) 0 0 ++
      GenericNetlinkMessage.to_byte_array ⟨msgType, command, 2, attrs⟩).getD 7 0 =
      netlink_flags_value flags / 256 % 256 := by
    rw [hhdr]
    rfl
  rw [hg0, hg1, hg2, hg3, hg4, hg5, hg6, hg7]
  have hml : u32le
      ((16 + (GenericNetlinkMessage.to_byte_array ⟨msgType, command, 2, attrs⟩).length) %
        4294967296 % 256)
      ((16 + (GenericNetlinkMessage.to_byte_array ⟨msgType, command, 2, attrs⟩).length) %
        4294967296 / 256 % 256)
      ((16 + (GenericNetlinkMessage.to_byte_array ⟨msgType, command, 2, attrs⟩).length) %
        4294967296 / 65536 % 256)
      ((16 + (GenericNetlinkMessage.to_byte_array ⟨msgType, command, 2, attrs⟩).length) %
        4294967296 / 16777216 % 256) =
      16 + (GenericNetlinkMessage.to_byte_array ⟨msgType, command, 2, attrs⟩).length := by
    unfold u32le
    omega
  have hmt : u16le (msgType % 256) (msgType / 256 % 256) = msgType := by
    unfold u16le
    omega
  have hfv : u16le (netlink_flags_value flags % 256) (netlink_flags_value flags / 256 % 256) =
      netlink_flags_value flags := by
    unfold u16le
    omega
  rw [hml, hmt, hfv]
  rw [from_u16_small (netlink_flags_value flags) hv64]
  dsimp only
  rw [if_neg hterr, h16]
  have hus : usize_sub
      (16 + (GenericNetlinkMessage.to_byte_array ⟨msgType, command, 2, attrs⟩).length) 16 =
      (GenericNetlinkMessage.to_byte_array ⟨msgType, command, 2, attrs⟩).length := by
    rw [usize_sub_eq_sub] <;> omega
  rw [hus]
  rw [if_pos (by omega)]
  have hdrop16 : (netlink_header_bytes
      ((16 + (GenericNetlinkMessage.to_byte_array ⟨msgType, command, 2, attrs⟩).length) %
        4294967296) msgType (netlink_flags_value flags) 0 0 ++
      GenericNetlinkMessage.to_byte_array ⟨msgType, command, 2, attrs⟩).drop 16 =
      GenericNetlinkMessage.to_byte_array ⟨msgType, command, 2, attrs⟩ := by
    rw [← hhdrlen]
    exact List.drop_left _ _
  rw [hdrop16, List.take_length]
  rw [generic_message_roundtrip msgType command attrs hcmd hattrs]

/-- The message of the C4 counterexample: family id 22, command 1, no
attributes, and the single flag Root — a perfectly encodable flag set. -/
def c4RootMsg : NetlinkMessage :=
  ⟨22, [.root], ⟨22, 1, 2, []⟩⟩

/-- C4 counterexample: decoding the encoding of a message whose flag set is
{Root} FAILS with UnknownMsgFlags(0x200) instead of returning the original
message: from_u16 sees bit 0x100, pushes Root, then also matches the Dump
test (0x300), ORing 0x300 into its bookkeeping, so the final check finds
bit 0x200 unaccounted for.  The claim's round-trip does not hold for an
arbitrary encodable flag set. -/
theorem netlink_roundtrip_fails_for_root_flag :
    NetlinkMessage.from_byte_array c4RootMsg.to_byte_array =
      some (.error (.unknownMsgFlags 512)) := by
  decide

/-- C4 witness: the amended round-trip at a concrete message (family 22,
command 1, flags {Request, Ack}, two attributes). -/
theorem netlink_message_roundtrip_witness :
    ∃ m', NetlinkMessage.from_byte_array
        (NetlinkMessage.to_byte_array ⟨22, [.request, .ack], ⟨22, 1, 2, [⟨1, [9, 9, 9]⟩, ⟨2, []⟩]⟩⟩) =
        some (.ok m') ∧
      m'.msg_type = 22 ∧
      m'.payload.command = 1 ∧
      m'.payload.attributes = [⟨1, [9, 9, 9]⟩, ⟨2, []⟩] ∧
      (∀ f, f ∈ m'.flags ↔ f ∈ [NetlinkMessageFlag.request, NetlinkMessageFlag.ack]) :=
  netlink_message_roundtrip 22 1 [.request, .ack] [⟨1, [9, 9, 9]⟩, ⟨2, []⟩]
    (by decide) (by decide) (by decide) (by decide) (by decide) (by decide)

end VSensor
